import Mathlib

/-
Formal model of the PSP Skyvern adapter
(packages/skyvern/psp/skyvern/adapter.py).

Python dictionaries with a fixed key set are modelled as structures; a key
that may be absent becomes an `Option` field; `dict.get(k, d)` becomes
`Option.getD`.  Machine-level details (numpy uint8 arithmetic) are made
explicit with `% 256`.  The browser handle, which is an external driver
object, is modelled as an explicit state machine that also logs the
operations issued against it.
-/

/- ### Cookie codec (`_normalize_cookies`, `_reverse_cookie_mapping`) -/

/-- A driver-native (Skyvern) cookie record as consumed by
`_normalize_cookies`: `name` and `value` are accessed with `cookie[...]`
(required), every other field with `cookie.get(...)` (optional). -/
structure SkyvernCookie where
  name : String
  value : String
  domain : Option String
  path : Option String
  expires : Option Int
  httpOnly : Option Bool
  secure : Option Bool
  sameSite : Option String
deriving DecidableEq

/-- The canonical PSP cookie produced by `_normalize_cookies`: all keys are
present, `expires` may be `None` (session cookie). -/
structure Cookie where
  name : String
  value : String
  domain : String
  path : String
  expires : Option Int
  httpOnly : Bool
  secure : Bool
  sameSite : String
deriving DecidableEq

/-- The driver-format cookie dict built by `_reverse_cookie_mapping`: every
key is present; `expires` may be `None`. -/
structure SkyvernCookieOut where
  name : String
  value : String
  domain : String
  path : String
  expires : Option Int
  httpOnly : Bool
  secure : Bool
  sameSite : String
deriving DecidableEq

/-- Body of the loop of `_normalize_cookies` (adapter.py lines 446-456). -/
def normalizeCookie (cookie : SkyvernCookie) : Cookie :=
  { name := cookie.name
    value := cookie.value
    domain := cookie.domain.getD ""
    path := cookie.path.getD "/"
    expires := cookie.expires
    httpOnly := cookie.httpOnly.getD false
    secure := cookie.secure.getD false
    sameSite := cookie.sameSite.getD "Lax" }

/-- `_normalize_cookies` (adapter.py lines 435-457). -/
def _normalize_cookies (cookies : List SkyvernCookie) : List Cookie :=
  cookies.map normalizeCookie

/-- `_reverse_cookie_mapping` (adapter.py lines 459-478).  On the canonical
`Cookie` shape every `cookie.get(...)` finds its key, so the defaults
`"/"`, `False`, `"Lax"` never fire and `expires` passes through as-is. -/
def _reverse_cookie_mapping (cookie : Cookie) : SkyvernCookieOut :=
  { name := cookie.name
    value := cookie.value
    domain := cookie.domain
    path := cookie.path
    expires := cookie.expires
    httpOnly := cookie.httpOnly
    secure := cookie.secure
    sameSite := cookie.sameSite }

/- ### URLs -/

/-- Scan for the first `://` and return what follows it, if any. -/
def afterSchemeSep : List Char → Option (List Char)
  | ':' :: '/' :: '/' :: rest => some rest
  | _ :: rest => afterSchemeSep rest
  | [] => none

/-- The `netloc` component of `urllib.parse.urlparse`, modelled for the
absolute URLs the adapter handles: the text between the first `://` and the
next `/`, `?` or `#`; a URL with no scheme separator has an empty netloc. -/
def netloc (url : String) : String :=
  match afterSchemeSep url.toList with
  | some rest =>
      String.mk (rest.takeWhile (fun c => c != '/' && c != '?' && c != '#'))
  | none => ""

/- ### The `BrowserSessionState` snapshot (adapter.py lines 121-144) -/

/-- One key-to-value map of a storage area for a single origin. -/
abbrev StorageMap := List (String × String)

/-- The origin-keyed storage maps `storage.localStorage` /
`storage.sessionStorage`. -/
abbrev OriginStorage := List (String × StorageMap)

/-- Python `m.get(origin, {})` on an origin-keyed storage dict. -/
def lookupOrigin (m : OriginStorage) (origin : String) : StorageMap :=
  ((m.find? (fun p => p.1 == origin)).map Prod.snd).getD []

/-- The `screenshot` extension entry `{data, timestamp, format}`. -/
structure Screenshot where
  data : List Nat
  timestamp : Int
  format : String
deriving DecidableEq

/-- The optional `extensions` mapping of a snapshot; only the `screenshot`
entry is consulted by `apply_state`. -/
structure Extensions where
  screenshot : Option Screenshot
deriving DecidableEq

/-- One `history.entries` element. -/
structure HistoryEntry where
  url : String
  title : String
  timestamp : Int
deriving DecidableEq

/-- The `history` block of a snapshot. -/
structure History where
  currentUrl : String
  entries : List HistoryEntry
  currentIndex : Int
deriving DecidableEq

/-- The `storage` block of a snapshot. -/
structure Storage where
  cookies : List Cookie
  localStorage : OriginStorage
  sessionStorage : OriginStorage
deriving DecidableEq

/-- The canonical snapshot built by `capture_state`. -/
structure BrowserSessionState where
  version : String
  timestamp : Int
  origin : String
  storage : Storage
  history : History
  extensions : Option Extensions
deriving DecidableEq

/-- The reference screenshot of a snapshot, when its extensions carry one
(`"extensions" in state and "screenshot" in state["extensions"]`). -/
def screenshotRef (state : BrowserSessionState) : Option Screenshot :=
  state.extensions.bind (fun e => e.screenshot)

/- ### The browser driver, as a logging state machine

The adapter drives an external browser through the capability interface
(`goto`, `add_cookie`, `get_current_url`, `evaluate`, `screenshot`).  The
machine records every issued operation in `trace` and keeps the observable
page state.  `redirect` is the driver's navigation behaviour: `goto u`
lands on `redirect u` (navigation may redirect, so the URL read back in
step 3 of `apply_state` need not be the one requested). -/

/-- One browser operation issued by the adapter.  `evalStorage` stands for
evaluating the single combined storage script of `apply_state` (lines
175-189), whose JavaScript clears both `window.localStorage` and
`window.sessionStorage` and repopulates them from its two arguments. -/
inductive BrowserOp where
  | goto (url : String)
  | addCookie (c : SkyvernCookieOut)
  | getCurrentUrl
  | evalStorage (localS sessionS : StorageMap)
  | takeScreenshot
deriving DecidableEq

/-- The external browser: driver behaviour (`redirect`, `screenshotOf`),
observable page state, and the log of operations issued against it. -/
structure Browser where
  redirect : String → String
  screenshotOf : String → List Nat
  currentUrl : String
  cookieJar : List SkyvernCookieOut
  localStorage : OriginStorage
  sessionStorage : OriginStorage
  trace : List BrowserOp

/-- Replace (or create) the entry of one origin in an origin-keyed store. -/
def setOrigin : OriginStorage → String → StorageMap → OriginStorage
  | [], origin, v => [(origin, v)]
  | p :: rest, origin, v =>
      if p.1 == origin then (origin, v) :: rest
      else p :: setOrigin rest origin v

/-- `browser.goto(u)`: the page lands on `redirect u`. -/
def Browser.goto (b : Browser) (u : String) : Browser :=
  { b with currentUrl := b.redirect u, trace := b.trace ++ [BrowserOp.goto u] }

/-- `browser.add_cookie(c)`. -/
def Browser.add_cookie (b : Browser) (c : SkyvernCookieOut) : Browser :=
  { b with cookieJar := b.cookieJar ++ [c],
           trace := b.trace ++ [BrowserOp.addCookie c] }

/-- `browser.get_current_url()`. -/
def Browser.get_current_url (b : Browser) : String × Browser :=
  (b.currentUrl, { b with trace := b.trace ++ [BrowserOp.getCurrentUrl] })

/-- Evaluating the combined storage script with the two maps as arguments:
the script clears both storage areas of the current page and repopulates
them, i.e. the current origin's storage becomes exactly the given maps. -/
def Browser.evalStorageScript (b : Browser) (localS sessionS : StorageMap) :
    Browser :=
  { b with
    localStorage := setOrigin b.localStorage (netloc b.currentUrl) localS
    sessionStorage := setOrigin b.sessionStorage (netloc b.currentUrl) sessionS
    trace := b.trace ++ [BrowserOp.evalStorage localS sessionS] }

/-- `browser.screenshot()`. -/
def Browser.screenshot (b : Browser) : List Nat × Browser :=
  (b.screenshotOf b.currentUrl,
   { b with trace := b.trace ++ [BrowserOp.takeScreenshot] })

/-- The error raised when visual verification fails (adapter.py lines
211-214): the message carries the measured similarity and the threshold. -/
structure VisualVerificationError where
  similarity : ℚ
  threshold : ℚ
deriving DecidableEq

/-- `apply_state` (adapter.py lines 148-214).  `compare` stands for
`self._compare_screenshots`.  The returned `Browser` is the external
browser after the call (its state persists even when the error is raised);
the `Option` is the raised `VisualVerificationError`, if any. -/
def apply_state (compare : List Nat → List Nat → ℚ) (b : Browser)
    (state : BrowserSessionState) (verify_visual_state : Bool)
    (visual_similarity_threshold : ℚ) :
    Browser × Option VisualVerificationError :=
  let b1 := b.goto state.history.currentUrl
  let b2 := state.storage.cookies.foldl
    (fun acc cookie => acc.add_cookie (_reverse_cookie_mapping cookie)) b1
  let read := b2.get_current_url
  let url := read.1
  let b3 := read.2
  let origin := netloc url
  let local_storage := lookupOrigin state.storage.localStorage origin
  let session_storage := lookupOrigin state.storage.sessionStorage origin
  let b4 := b3.evalStorageScript local_storage session_storage
  let b5 := b4.goto url
  if verify_visual_state then
    match screenshotRef state with
    | some ref =>
        let shot := b5.screenshot
        let similarity := compare ref.data shot.1
        if similarity < visual_similarity_threshold then
          (shot.2, some { similarity := similarity,
                          threshold := visual_similarity_threshold })
        else (shot.2, none)
    | none => (b5, none)
  else (b5, none)

/-- C1: for a driver cookie whose optional fields all carry values, the
round trip `_reverse_cookie_mapping (normalizeCookie c)` preserves name,
domain, path, httpOnly, secure and sameSite, and preserves the presence or
absence of `expires` exactly (an absent expiry stays absent, i.e. the
cookie stays a session cookie). -/
theorem cookie_roundtrip_preserves_fields (c : SkyvernCookie)
    (d p ss : String) (ho se : Bool)
    (hd : c.domain = some d) (hp : c.path = some p)
    (hh : c.httpOnly = some ho) (hs : c.secure = some se)
    (hss : c.sameSite = some ss) :
    (_reverse_cookie_mapping (normalizeCookie c)).name = c.name ∧
    (_reverse_cookie_mapping (normalizeCookie c)).domain = d ∧
    (_reverse_cookie_mapping (normalizeCookie c)).path = p ∧
    (_reverse_cookie_mapping (normalizeCookie c)).httpOnly = ho ∧
    (_reverse_cookie_mapping (normalizeCookie c)).secure = se ∧
    (_reverse_cookie_mapping (normalizeCookie c)).sameSite = ss ∧
    (_reverse_cookie_mapping (normalizeCookie c)).expires = c.expires := by
  simp [_reverse_cookie_mapping, normalizeCookie, hd, hp, hh, hs, hss]

/-- Witness for C1 at a concrete cookie with no expiry: all fields survive
the round trip and the absent expiry stays absent. -/
theorem cookie_roundtrip_preserves_fields_witness :
    (_reverse_cookie_mapping (normalizeCookie
      { name := "sid", value := "abc", domain := some "example.com",
        path := some "/", expires := none, httpOnly := some false,
        secure := some true, sameSite := some "Strict" })).domain
      = "example.com" ∧
    (_reverse_cookie_mapping (normalizeCookie
      { name := "sid", value := "abc", domain := some "example.com",
        path := some "/", expires := none, httpOnly := some false,
        secure := some true, sameSite := some "Strict" })).expires
      = none := by
  have h := cookie_roundtrip_preserves_fields
    { name := "sid", value := "abc", domain := some "example.com",
      path := some "/", expires := none, httpOnly := some false,
      secure := some true, sameSite := some "Strict" }
    "example.com" "/" "Strict" false true rfl rfl rfl rfl rfl
  exact ⟨h.2.1, h.2.2.2.2.2.2⟩

/- ### Helper lemmas on the browser machine -/

/-- Folding the cookie-injection loop of `apply_state` over the browser
appends the cookies to the jar and logs one `addCookie` per cookie, leaving
every other component of the browser unchanged. -/
theorem foldl_add_cookie (cs : List Cookie) (b : Browser) :
    cs.foldl (fun acc cookie => acc.add_cookie (_reverse_cookie_mapping cookie)) b =
      { b with
        cookieJar := b.cookieJar ++ cs.map _reverse_cookie_mapping,
        trace := b.trace ++
          cs.map (fun c => BrowserOp.addCookie (_reverse_cookie_mapping c)) } := by
  induction cs generalizing b with
  | nil => simp
  | cons c rest ih =>
      simp only [List.foldl_cons, List.map_cons]
      rw [ih]
      simp [Browser.add_cookie, List.append_assoc]

/-- Overwriting one origin's entry leaves every other origin's lookup
unchanged. -/
theorem lookupOrigin_setOrigin_ne (m : OriginStorage) (b o : String)
    (v : StorageMap) (h : o ≠ b) :
    lookupOrigin (setOrigin m b v) o = lookupOrigin m o := by
  induction m with
  | nil =>
      have hbo : (b == o) = false := by
        simp only [beq_eq_false_iff_ne, ne_eq]
        intro hc; exact h hc.symm
      simp [setOrigin, lookupOrigin, List.find?, hbo]
  | cons p rest ih =>
      by_cases hp : p.1 = b
      · simp [setOrigin, hp, lookupOrigin, List.find?]
        have hbo : (b == o) = false := by
          simp [beq_iff_eq]
          intro hc; exact h hc.symm
        have hpo : (p.1 == o) = false := by
          simp [beq_iff_eq, hp]
          intro hc; exact h hc.symm
        simp [hbo, hpo]
      · have hpb : (p.1 == b) = false := by simp [beq_iff_eq, hp]
        simp only [setOrigin, hpb, if_neg, Bool.false_eq_true, ite_false]
        by_cases hpo : p.1 = o
        · simp [lookupOrigin, List.find?, hpo]
        · have hpo' : (p.1 == o) = false := by simp [beq_iff_eq, hpo]
          simp only [lookupOrigin, List.find?, hpo'] at ih ⊢
          exact ih

/-- C2: `apply_state` issues its browser operations in exactly this order:
(1) navigate to `state.history.currentUrl`; (2) one `add_cookie` per
snapshot cookie through `_reverse_cookie_mapping`; (3) re-read the current
URL; (4) evaluate the single combined storage script with the two maps
selected by the origin recomputed from the re-read URL; (5) reload the
page (a screenshot follows only when visual verification is requested and
a reference screenshot exists).  Moreover the run never reads the
snapshot's own `origin` field: changing it changes nothing. -/
theorem apply_state_operation_order (compare : List Nat → List Nat → ℚ)
    (b : Browser) (state : BrowserSessionState) (verify_visual_state : Bool)
    (threshold : ℚ) :
    ((apply_state compare b state verify_visual_state threshold).1).trace =
      b.trace
        ++ [BrowserOp.goto state.history.currentUrl]
        ++ state.storage.cookies.map
             (fun c => BrowserOp.addCookie (_reverse_cookie_mapping c))
        ++ [BrowserOp.getCurrentUrl,
            BrowserOp.evalStorage
              (lookupOrigin state.storage.localStorage
                (netloc (b.redirect state.history.currentUrl)))
              (lookupOrigin state.storage.sessionStorage
                (netloc (b.redirect state.history.currentUrl))),
            BrowserOp.goto (b.redirect state.history.currentUrl)]
        ++ (if verify_visual_state && (screenshotRef state).isSome
            then [BrowserOp.takeScreenshot] else []) ∧
    (∀ o : String,
      apply_state compare b { state with origin := o } verify_visual_state
          threshold
        = apply_state compare b state verify_visual_state threshold) := by
  constructor
  · unfold apply_state
    simp only [foldl_add_cookie]
    cases verify_visual_state with
    | false =>
        simp [Browser.goto, Browser.get_current_url,
              Browser.evalStorageScript, List.append_assoc]
    | true =>
        cases hs : screenshotRef state with
        | none =>
            simp [hs, Browser.goto, Browser.get_current_url,
                  Browser.evalStorageScript, List.append_assoc]
        | some ref =>
            simp [hs, Browser.goto, Browser.get_current_url,
                  Browser.evalStorageScript, Browser.screenshot,
                  apply_ite Prod.fst, ite_self, List.append_assoc]
  · intro o
    rfl

/-- C3 (amended): writing storage during `apply_state` is keyed solely by
the restore-time origin `B = netloc(url-after-navigation)`: B's entry of
the browser's storage becomes exactly the snapshot map stored under B
(possibly empty), every other origin's entry — in particular the
capture-time origin A when A is not B — is untouched, and the cookie jar
grows by exactly the snapshot's cookies.  A snapshot with no cookies and
no storage for B is tolerated: no cookie is added and B's entry is set to
the empty map (the combined script still clears it), before the reload. -/
theorem apply_state_origin_isolation (compare : List Nat → List Nat → ℚ)
    (b : Browser) (state : BrowserSessionState) (verify_visual_state : Bool)
    (threshold : ℚ) :
    ((apply_state compare b state verify_visual_state threshold).1).localStorage
      = setOrigin b.localStorage (netloc (b.redirect state.history.currentUrl))
          (lookupOrigin state.storage.localStorage
            (netloc (b.redirect state.history.currentUrl))) ∧
    ((apply_state compare b state verify_visual_state threshold).1).sessionStorage
      = setOrigin b.sessionStorage (netloc (b.redirect state.history.currentUrl))
          (lookupOrigin state.storage.sessionStorage
            (netloc (b.redirect state.history.currentUrl))) ∧
    (∀ o : String, o ≠ netloc (b.redirect state.history.currentUrl) →
      lookupOrigin
        ((apply_state compare b state verify_visual_state threshold).1).localStorage o
        = lookupOrigin b.localStorage o) ∧
    ((apply_state compare b state verify_visual_state threshold).1).cookieJar
      = b.cookieJar ++ state.storage.cookies.map _reverse_cookie_mapping ∧
    (state.storage.cookies = [] →
      ((apply_state compare b state verify_visual_state threshold).1).cookieJar
        = b.cookieJar) := by
  have hls :
      ((apply_state compare b state verify_visual_state threshold).1).localStorage
        = setOrigin b.localStorage (netloc (b.redirect state.history.currentUrl))
            (lookupOrigin state.storage.localStorage
              (netloc (b.redirect state.history.currentUrl))) := by
    unfold apply_state
    simp only [foldl_add_cookie]
    cases verify_visual_state with
    | false =>
        simp [Browser.goto, Browser.get_current_url, Browser.evalStorageScript]
    | true =>
        cases hs : screenshotRef state with
        | none =>
            simp [hs, Browser.goto, Browser.get_current_url,
                  Browser.evalStorageScript]
        | some ref =>
            simp [hs, Browser.goto, Browser.get_current_url,
                  Browser.evalStorageScript, Browser.screenshot,
                  apply_ite Prod.fst, ite_self]
  have hss :
      ((apply_state compare b state verify_visual_state threshold).1).sessionStorage
        = setOrigin b.sessionStorage (netloc (b.redirect state.history.currentUrl))
            (lookupOrigin state.storage.sessionStorage
              (netloc (b.redirect state.history.currentUrl))) := by
    unfold apply_state
    simp only [foldl_add_cookie]
    cases verify_visual_state with
    | false =>
        simp [Browser.goto, Browser.get_current_url, Browser.evalStorageScript]
    | true =>
        cases hs : screenshotRef state with
        | none =>
            simp [hs, Browser.goto, Browser.get_current_url,
                  Browser.evalStorageScript]
        | some ref =>
            simp [hs, Browser.goto, Browser.get_current_url,
                  Browser.evalStorageScript, Browser.screenshot,
                  apply_ite Prod.fst, ite_self]
  have hcj :
      ((apply_state compare b state verify_visual_state threshold).1).cookieJar
        = b.cookieJar ++ state.storage.cookies.map _reverse_cookie_mapping := by
    unfold apply_state
    simp only [foldl_add_cookie]
    cases verify_visual_state with
    | false =>
        simp [Browser.goto, Browser.get_current_url, Browser.evalStorageScript]
    | true =>
        cases hs : screenshotRef state with
        | none =>
            simp [hs, Browser.goto, Browser.get_current_url,
                  Browser.evalStorageScript]
        | some ref =>
            simp [hs, Browser.goto, Browser.get_current_url,
                  Browser.evalStorageScript, Browser.screenshot,
                  apply_ite Prod.fst, ite_self]
  refine ⟨hls, hss, ?_, hcj, ?_⟩
  · intro o ho
    rw [hls]
    exact lookupOrigin_setOrigin_ne _ _ _ _ ho
  · intro hnil
    rw [hcj, hnil]
    simp

/-- Witness for C3 (amended) at a concrete run: the snapshot stores data
only under `a.com`, the page lands on `b.com`, and an unrelated origin
`other.org` keeps its storage untouched while the snapshot's single cookie
reaches the jar. -/
theorem apply_state_origin_isolation_witness :
    lookupOrigin
      ((apply_state (fun _ _ => 0)
        { redirect := fun u => u, screenshotOf := fun _ => [],
          currentUrl := "about:blank", cookieJar := [],
          localStorage := [("other.org", [("w", "1")]), ("b.com", [("k", "v")])],
          sessionStorage := [], trace := [] }
        { version := "1.0.0", timestamp := 0, origin := "a.com",
          storage := { cookies := [],
                       localStorage := [("a.com", [("x", "1")])],
                       sessionStorage := [] },
          history := { currentUrl := "https://b.com/", entries := [],
                       currentIndex := 0 },
          extensions := none }
        false 1).1).localStorage "other.org" = [("w", "1")] ∧
    ((apply_state (fun _ _ => 0)
        { redirect := fun u => u, screenshotOf := fun _ => [],
          currentUrl := "about:blank", cookieJar := [],
          localStorage := [("other.org", [("w", "1")]), ("b.com", [("k", "v")])],
          sessionStorage := [], trace := [] }
        { version := "1.0.0", timestamp := 0, origin := "a.com",
          storage := { cookies := [],
                       localStorage := [("a.com", [("x", "1")])],
                       sessionStorage := [] },
          history := { currentUrl := "https://b.com/", entries := [],
                       currentIndex := 0 },
          extensions := none }
        false 1).1).cookieJar = [] := by
  have h := apply_state_origin_isolation (fun _ _ => 0)
    { redirect := fun u => u, screenshotOf := fun _ => [],
      currentUrl := "about:blank", cookieJar := [],
      localStorage := [("other.org", [("w", "1")]), ("b.com", [("k", "v")])],
      sessionStorage := [], trace := [] }
    { version := "1.0.0", timestamp := 0, origin := "a.com",
      storage := { cookies := [],
                   localStorage := [("a.com", [("x", "1")])],
                   sessionStorage := [] },
      history := { currentUrl := "https://b.com/", entries := [],
                   currentIndex := 0 },
      extensions := none }
    false 1
  refine ⟨?_, h.2.2.2.2 rfl⟩
  have hne : ("other.org" : String) ≠ netloc "https://b.com/" := by decide
  exact (h.2.2.1 "other.org" hne).trans (by decide)

/-- C3, as stated, is false in its final clause: a snapshot with no
cookies and no storage for the restore-time origin is NOT a pure
navigation — the combined storage script still runs and clears the
origin's existing storage, which a plain `goto` to the same URL leaves in
place. -/
theorem apply_state_pure_navigation_counterexample :
    lookupOrigin
      ((apply_state (fun _ _ => 0)
        { redirect := fun u => u, screenshotOf := fun _ => [],
          currentUrl := "https://b.com/", cookieJar := [],
          localStorage := [("b.com", [("k", "v")])], sessionStorage := [],
          trace := [] }
        { version := "1.0.0", timestamp := 0, origin := "a.com",
          storage := { cookies := [],
                       localStorage := [("a.com", [("x", "1")])],
                       sessionStorage := [] },
          history := { currentUrl := "https://b.com/", entries := [],
                       currentIndex := 0 },
          extensions := none }
        false 1).1).localStorage "b.com" = [] ∧
    lookupOrigin
      ((Browser.goto
        { redirect := fun u => u, screenshotOf := fun _ => [],
          currentUrl := "https://b.com/", cookieJar := [],
          localStorage := [("b.com", [("k", "v")])], sessionStorage := [],
          trace := [] } "https://b.com/").localStorage) "b.com"
      = [("k", "v")] := by
  constructor
  · decide
  · decide

/-- C4: when the snapshot carries a screenshot extension and
`verify_visual_state` is true, `apply_state` raises a visual-verification
error carrying the exact measured similarity precisely when that
similarity is strictly below the threshold, and completes without error
when it is greater than or equal to the threshold.  The measured value is
`compare` applied to the reference data and the screenshot of the page
after the reload. -/
theorem apply_state_visual_gate (compare : List Nat → List Nat → ℚ)
    (b : Browser) (state : BrowserSessionState) (threshold : ℚ)
    (ref : Screenshot) (href : screenshotRef state = some ref) :
    (compare ref.data
        (b.screenshotOf (b.redirect (b.redirect state.history.currentUrl)))
        < threshold →
      (apply_state compare b state true threshold).2
        = some { similarity := compare ref.data
                   (b.screenshotOf
                     (b.redirect (b.redirect state.history.currentUrl))),
                 threshold := threshold }) ∧
    (threshold ≤ compare ref.data
        (b.screenshotOf (b.redirect (b.redirect state.history.currentUrl))) →
      (apply_state compare b state true threshold).2 = none) := by
  constructor
  · intro hlt
    unfold apply_state
    simp only [foldl_add_cookie]
    simp [href, Browser.goto, Browser.get_current_url,
          Browser.evalStorageScript, Browser.screenshot, hlt]
  · intro hge
    unfold apply_state
    simp only [foldl_add_cookie]
    simp [href, Browser.goto, Browser.get_current_url,
          Browser.evalStorageScript, Browser.screenshot, not_lt.mpr hge]

/-- Witness for C4: with a comparison that measures similarity 1/2, a
threshold of 9/10 raises the error carrying exactly 1/2, and a threshold
of 1/4 completes without error. -/
theorem apply_state_visual_gate_witness :
    (apply_state (fun _ _ => 1/2)
      { redirect := fun u => u, screenshotOf := fun _ => [],
        currentUrl := "about:blank", cookieJar := [], localStorage := [],
        sessionStorage := [], trace := [] }
      { version := "1.0.0", timestamp := 0, origin := "a.com",
        storage := { cookies := [], localStorage := [], sessionStorage := [] },
        history := { currentUrl := "https://a.com/", entries := [],
                     currentIndex := 0 },
        extensions := some { screenshot := some { data := [1, 2],
                                                  timestamp := 0,
                                                  format := "png" } } }
      true (9/10)).2
      = some { similarity := 1/2, threshold := 9/10 } ∧
    (apply_state (fun _ _ => 1/2)
      { redirect := fun u => u, screenshotOf := fun _ => [],
        currentUrl := "about:blank", cookieJar := [], localStorage := [],
        sessionStorage := [], trace := [] }
      { version := "1.0.0", timestamp := 0, origin := "a.com",
        storage := { cookies := [], localStorage := [], sessionStorage := [] },
        history := { currentUrl := "https://a.com/", entries := [],
                     currentIndex := 0 },
        extensions := some { screenshot := some { data := [1, 2],
                                                  timestamp := 0,
                                                  format := "png" } } }
      true (1/4)).2 = none := by
  constructor
  · exact (apply_state_visual_gate (fun _ _ => 1/2)
      { redirect := fun u => u, screenshotOf := fun _ => [],
        currentUrl := "about:blank", cookieJar := [], localStorage := [],
        sessionStorage := [], trace := [] }
      { version := "1.0.0", timestamp := 0, origin := "a.com",
        storage := { cookies := [], localStorage := [], sessionStorage := [] },
        history := { currentUrl := "https://a.com/", entries := [],
                     currentIndex := 0 },
        extensions := some { screenshot := some { data := [1, 2],
                                                  timestamp := 0,
                                                  format := "png" } } }
      (9/10) { data := [1, 2], timestamp := 0, format := "png" } rfl).1
      (by norm_num)
  · exact (apply_state_visual_gate (fun _ _ => 1/2)
      { redirect := fun u => u, screenshotOf := fun _ => [],
        currentUrl := "about:blank", cookieJar := [], localStorage := [],
        sessionStorage := [], trace := [] }
      { version := "1.0.0", timestamp := 0, origin := "a.com",
        storage := { cookies := [], localStorage := [], sessionStorage := [] },
        history := { currentUrl := "https://a.com/", entries := [],
                     currentIndex := 0 },
        extensions := some { screenshot := some { data := [1, 2],
                                                  timestamp := 0,
                                                  format := "png" } } }
      (1/4) { data := [1, 2], timestamp := 0, format := "png" } rfl).2
      (by norm_num)

/- ### `_compare_screenshots` (adapter.py lines 390-433)

The imaging runtime is external: `decode` stands for
`PIL.Image.open(io.BytesIO(...))` (`none` = the decode raised), `resize`
for `PIL.Image.resize`, and `pilAvailable` for the `from PIL import ...`
succeeding.  `np.array` of a PIL image has dtype uint8, so the pixel
values are taken modulo 256, and `(ref_arr - cur_arr) ** 2` is computed in
uint8 arithmetic, wrapping modulo 256 at both the subtraction and the
squaring.  A shape mismatch of the two arrays raises inside the `try` and
is caught (a successful decode never produces a zero-pixel image, so the
zero-length branch is unreachable in the runtime). -/

/-- A decoded PIL image: its `size` and its flattened channel values. -/
structure PILImage where
  size : Nat × Nat
  px : List Nat
deriving DecidableEq

/-- `np.array(img)`: uint8 values. -/
def toArr (img : PILImage) : List Nat := img.px.map (fun v => v % 256)

/-- One element of `(ref_arr - cur_arr) ** 2` in numpy uint8 arithmetic:
wrapped subtraction, then wrapped squaring. -/
def sqDiffU8 (a b : Nat) : Nat := ((a % 256 + 256 - b % 256) % 256) ^ 2 % 256

/-- `np.mean((ref_arr - cur_arr) ** 2)` over two equal-length uint8
arrays. -/
def mseU8 (ref cur : List Nat) : ℚ :=
  ((List.zipWith sqDiffU8 ref cur).sum : ℚ)
    / ((List.zipWith sqDiffU8 ref cur).length : ℚ)

/-- Lines 418-426: the score for two decoded arrays — `1.0` when the MSE
is zero, else `1 - mse / 255 ** 2`. -/
def compareDecoded (ref cur : List Nat) : ℚ :=
  if mseU8 ref cur = 0 then 1 else 1 - mseU8 ref cur / (255 ^ 2 : ℚ)

/-- An exception raised inside the `try` of `_compare_screenshots`. -/
inductive PyError where
  | decodeError
  | shapeError
deriving DecidableEq

/-- The `try` body of `_compare_screenshots` (lines 406-426) as an
exception-or-value computation. -/
def compareBody (decode : List Nat → Option PILImage)
    (resize : PILImage → Nat × Nat → PILImage)
    (reference current : List Nat) : Except PyError ℚ :=
  match decode reference, decode current with
  | some refImg, some curImg0 =>
      let curImg := resize curImg0 refImg.size
      let refArr := toArr refImg
      let curArr := toArr curImg
      if refArr.length = curArr.length ∧ refArr.length ≠ 0 then
        Except.ok (compareDecoded refArr curArr)
      else Except.error PyError.shapeError
  | _, _ => Except.error PyError.decodeError

/-- `_compare_screenshots` (lines 390-433): an unavailable imaging runtime
(`ImportError`) returns 0.0, and every exception of the body is caught and
also yields 0.0. -/
def _compare_screenshots (pilAvailable : Bool)
    (decode : List Nat → Option PILImage)
    (resize : PILImage → Nat × Nat → PILImage)
    (reference current : List Nat) : ℚ :=
  if pilAvailable = false then 0
  else
    match compareBody decode resize reference current with
    | Except.ok similarity => similarity
    | Except.error _ => 0

/- ### Bounds of the similarity score -/

/-- Each wrapped squared difference is a uint8 value, hence at most 255. -/
theorem sqDiffU8_le (a b : Nat) : sqDiffU8 a b ≤ 255 :=
  Nat.le_of_lt_succ (Nat.mod_lt _ (by norm_num))

/-- The wrapped squared difference of a value with itself vanishes. -/
theorem sqDiffU8_self (a : Nat) : sqDiffU8 a a = 0 := by
  unfold sqDiffU8
  have h : a % 256 + 256 - a % 256 = 256 := by omega
  simp [h]

/-- The sum of the wrapped squared differences is at most 255 per entry. -/
theorem sum_sqDiff_le (ref cur : List Nat) :
    (List.zipWith sqDiffU8 ref cur).sum
      ≤ 255 * (List.zipWith sqDiffU8 ref cur).length := by
  induction ref generalizing cur with
  | nil => simp
  | cons a rest ih =>
      cases cur with
      | nil => simp
      | cons b cur' =>
          simp only [List.zipWith_cons_cons, List.sum_cons, List.length_cons]
          have h1 := sqDiffU8_le a b
          have h2 := ih cur'
          omega

/-- The mean squared error is nonnegative. -/
theorem mseU8_nonneg (ref cur : List Nat) : 0 ≤ mseU8 ref cur := by
  unfold mseU8
  positivity

/-- The mean squared error of uint8 wrapped squares is at most 255. -/
theorem mseU8_le (ref cur : List Nat) : mseU8 ref cur ≤ 255 := by
  unfold mseU8
  rcases Nat.eq_zero_or_pos (List.zipWith sqDiffU8 ref cur).length with h0 | hpos
  · simp [h0, List.length_eq_zero.mp h0]
  · rw [div_le_iff₀ (by exact_mod_cast hpos)]
    calc ((List.zipWith sqDiffU8 ref cur).sum : ℚ)
        ≤ (255 * (List.zipWith sqDiffU8 ref cur).length : ℕ) := by
          exact_mod_cast sum_sqDiff_le ref cur
      _ = 255 * ((List.zipWith sqDiffU8 ref cur).length : ℚ) := by
          push_cast; ring

/-- The decoded-array score is nonnegative. -/
theorem compareDecoded_nonneg (ref cur : List Nat) :
    0 ≤ compareDecoded ref cur := by
  unfold compareDecoded
  split
  · norm_num
  · have h := mseU8_le ref cur
    have h2 : mseU8 ref cur / (255 ^ 2 : ℚ) ≤ 1 := by
      rw [div_le_one (by norm_num : (0:ℚ) < 255 ^ 2)]
      linarith
    linarith

/-- The decoded-array score is at most one. -/
theorem compareDecoded_le_one (ref cur : List Nat) :
    compareDecoded ref cur ≤ 1 := by
  unfold compareDecoded
  split
  · norm_num
  · have h : 0 ≤ mseU8 ref cur / (255 ^ 2 : ℚ) :=
      div_nonneg (mseU8_nonneg ref cur) (by norm_num)
    linarith

/-- The score of identical decoded arrays is exactly one. -/
theorem compareDecoded_self (a : List Nat) : compareDecoded a a = 1 := by
  have hz : (List.zipWith sqDiffU8 a a).sum = 0 := by
    induction a with
    | nil => simp
    | cons x rest ih => simp [sqDiffU8_self, ih]
  have hm : mseU8 a a = 0 := by
    unfold mseU8
    rw [hz]
    simp
  unfold compareDecoded
  rw [hm]
  simp

/-- Every score the `try` body can produce lies in the unit interval. -/
theorem compareBody_ok_bounds (decode : List Nat → Option PILImage)
    (resize : PILImage → Nat × Nat → PILImage)
    (reference current : List Nat) (q : ℚ)
    (h : compareBody decode resize reference current = Except.ok q) :
    0 ≤ q ∧ q ≤ 1 := by
  unfold compareBody at h
  cases hdr : decode reference with
  | none => rw [hdr] at h; exact absurd h (by simp)
  | some refImg =>
      cases hdc : decode current with
      | none => rw [hdr, hdc] at h; exact absurd h (by simp)
      | some curImg0 =>
          rw [hdr, hdc] at h
          simp only at h
          split at h
          · cases h
            exact ⟨compareDecoded_nonneg _ _, compareDecoded_le_one _ _⟩
          · exact absurd h (by simp)

/-- `_compare_screenshots` always returns a score in the unit interval. -/
theorem compareScreenshots_bounds (pilAvailable : Bool)
    (decode : List Nat → Option PILImage)
    (resize : PILImage → Nat × Nat → PILImage)
    (reference current : List Nat) :
    0 ≤ _compare_screenshots pilAvailable decode resize reference current ∧
    _compare_screenshots pilAvailable decode resize reference current ≤ 1 := by
  unfold _compare_screenshots
  cases pilAvailable with
  | false => norm_num
  | true =>
      simp only [Bool.true_eq_false, if_false]
      cases hb : compareBody decode resize reference current with
      | ok q => exact compareBody_ok_bounds decode resize reference current q hb
      | error e => norm_num

/-- C5: the similarity of a decodable image with itself is exactly 1; the
score is always within [0, 1] (numpy's uint8 wraparound keeps the mean
squared error at most 255, far below the 255-squared divisor, so no value
can leave the interval); and an unavailable imaging runtime yields 0. -/
theorem compare_screenshots_similarity_bounds
    (decode : List Nat → Option PILImage)
    (resize : PILImage → Nat × Nat → PILImage)
    (reference current x : List Nat) (img : PILImage)
    (hx : decode x = some img) (hres : resize img img.size = img)
    (hne : img.px ≠ []) :
    _compare_screenshots true decode resize x x = 1 ∧
    (0 ≤ _compare_screenshots true decode resize reference current ∧
      _compare_screenshots true decode resize reference current ≤ 1) ∧
    _compare_screenshots false decode resize reference current = 0 := by
  refine ⟨?_, compareScreenshots_bounds true decode resize reference current,
    by unfold _compare_screenshots; simp⟩
  have hlen : (toArr img).length ≠ 0 := by
    unfold toArr
    simp only [List.length_map]
    intro hc
    exact hne (List.length_eq_zero.mp hc)
  have hbody : compareBody decode resize x x
      = Except.ok (compareDecoded (toArr img) (toArr img)) := by
    unfold compareBody
    rw [hx]
    simp [hres, hlen]
  unfold _compare_screenshots
  rw [hbody]
  simp [compareDecoded_self]

/-- Witness for C5: a one-pixel image decoder sees identical inputs score
exactly 1, and with the imaging runtime unavailable the score is 0. -/
theorem compare_screenshots_similarity_bounds_witness :
    _compare_screenshots true (fun _ => some { size := (1, 1), px := [7] })
      (fun i _ => i) [0] [0] = 1 ∧
    _compare_screenshots false (fun _ => some { size := (1, 1), px := [7] })
      (fun i _ => i) [0] [1] = 0 := by
  have h := compare_screenshots_similarity_bounds
    (fun _ => some { size := (1, 1), px := [7] }) (fun i _ => i)
    [0] [1] [0] { size := (1, 1), px := [7] } rfl rfl (by decide)
  exact ⟨h.1, h.2.2⟩

/-- C10: the screenshot comparison is total — for every pair of inputs it
returns a rational score inside [0, 1]; a missing imaging runtime yields
0; and every exception of the decoding/arithmetic body is caught and also
yields 0. -/
theorem compare_screenshots_total (pilAvailable : Bool)
    (decode : List Nat → Option PILImage)
    (resize : PILImage → Nat × Nat → PILImage)
    (reference current : List Nat) :
    (0 ≤ _compare_screenshots pilAvailable decode resize reference current ∧
      _compare_screenshots pilAvailable decode resize reference current ≤ 1) ∧
    (pilAvailable = false →
      _compare_screenshots pilAvailable decode resize reference current = 0) ∧
    (∀ e : PyError,
      compareBody decode resize reference current = Except.error e →
      _compare_screenshots pilAvailable decode resize reference current = 0) := by
  refine ⟨compareScreenshots_bounds pilAvailable decode resize reference current,
    ?_, ?_⟩
  · intro hp
    unfold _compare_screenshots
    simp [hp]
  · intro e he
    unfold _compare_screenshots
    cases pilAvailable with
    | false => simp
    | true => simp [he]

/-- Witness for C10: a decoder that always fails still produces the score
0 rather than an error. -/
theorem compare_screenshots_total_witness :
    _compare_screenshots true (fun _ => none) (fun i _ => i) [1] [2] = 0 := by
  exact (compare_screenshots_total true (fun _ => none) (fun i _ => i)
    [1] [2]).2.2 PyError.decodeError rfl

/- ### Events and the recorder (adapter.py lines 216-326) -/

/-- The variant payload `data` of a recorded event.  The recording script
emits, per event kind: click `{x, y, text?}`, input `{value, type}`,
navigation `{url}`; a key the kind does not emit is absent. -/
structure EventData where
  x : Option Int
  y : Option Int
  text : Option String
  value : Option String
  type : Option String
  url : Option String
deriving DecidableEq

/-- One canonical recorded event `{type, timestamp, target, data}`. -/
structure Event where
  type : String
  timestamp : Int
  target : String
  data : EventData
deriving DecidableEq

/-- Recorder state: the adapter's accumulating `self._recording_events`
and the in-page buffer `window._pspEvents`. -/
structure RecorderState where
  recording_events : List Event
  pageBuffer : List Event
deriving DecidableEq

/-- `start_recording` (lines 216-291): `self._recording_events = []`
resets the adapter's accumulator, and the injected script sets
`window._pspEvents = []`, clearing the in-page buffer. -/
def start_recording (_s : RecorderState) : RecorderState :=
  { recording_events := [], pageBuffer := [] }

/-- One event appended to the in-page buffer by the installed listeners. -/
def recordEvent (s : RecorderState) (e : Event) : RecorderState :=
  { s with pageBuffer := s.pageBuffer ++ [e] }

/-- A run of in-page events recorded in order. -/
def recordAll (s : RecorderState) (es : List Event) : RecorderState :=
  es.foldl recordEvent s

/-- `stop_recording` (lines 293-326): the drain script returns the
in-page buffer and clears it; each raw entry is mapped to the canonical
`{type, timestamp, target, data}` shape (the raw entries already carry
exactly those four fields, so the mapping is the identity here); the
result extends `self._recording_events` and that accumulated list is
returned. -/
def stop_recording (s : RecorderState) : List Event × RecorderState :=
  (s.recording_events ++ s.pageBuffer,
   { recording_events := s.recording_events ++ s.pageBuffer,
     pageBuffer := [] })

/-- Recording events only appends to the in-page buffer. -/
theorem recordAll_buffer (a buf es : List Event) :
    recordAll { recording_events := a, pageBuffer := buf } es
      = { recording_events := a, pageBuffer := buf ++ es } := by
  induction es generalizing buf with
  | nil => simp [recordAll]
  | cons e rest ih =>
      unfold recordAll at ih ⊢
      rw [List.foldl_cons]
      show rest.foldl recordEvent
        { recording_events := a, pageBuffer := buf ++ [e] } = _
      rw [ih]
      simp

/-- C6, as stated, is false: events returned by an earlier
`stop_recording` are NOT included in the list returned by a later
`stop_recording` once `start_recording` ran in between, because
`start_recording` resets `self._recording_events` to `[]`.  Concretely:
record a click, stop (returns the click), start again, record an input,
stop — the second result is only the input. -/
theorem stop_recording_additive_counterexample :
    (stop_recording (recordEvent (start_recording
        { recording_events := [], pageBuffer := [] })
        { type := "click", timestamp := 100, target := "BUTTON#submit",
          data := { x := some 1, y := some 2, text := some "Go",
                    value := none, type := none, url := none } })).1
      = [{ type := "click", timestamp := 100, target := "BUTTON#submit",
           data := { x := some 1, y := some 2, text := some "Go",
                     value := none, type := none, url := none } }] ∧
    (stop_recording (recordEvent (start_recording
        (stop_recording (recordEvent (start_recording
          { recording_events := [], pageBuffer := [] })
          { type := "click", timestamp := 100, target := "BUTTON#submit",
            data := { x := some 1, y := some 2, text := some "Go",
                      value := none, type := none, url := none } })).2)
        { type := "input", timestamp := 200, target := "INPUT#name",
          data := { x := none, y := none, text := none,
                    value := some "bob", type := some "text",
                    url := none } })).1
      = [{ type := "input", timestamp := 200, target := "INPUT#name",
           data := { x := none, y := none, text := none,
                     value := some "bob", type := some "text",
                     url := none } }] ∧
    ¬ (({ type := "click", timestamp := 100, target := "BUTTON#submit",
          data := { x := some 1, y := some 2, text := some "Go",
                    value := none, type := none, url := none } } : Event)
        ∈ ([{ type := "input", timestamp := 200, target := "INPUT#name",
              data := { x := none, y := none, text := none,
                        value := some "bob", type := some "text",
                        url := none } }] : List Event)) := by
  refine ⟨rfl, rfl, ?_⟩
  decide

/-- C6 (amended): `stop_recording` returns the full event sequence
accumulated since the last `start_recording`: stops without an
intervening start are additive (a later stop returns the earlier stop's
result extended by the newly drained events), while `start_recording`
resets both the adapter's accumulator and the in-page buffer. -/
theorem stop_recording_accumulates_since_start (s : RecorderState)
    (es : List Event) :
    (stop_recording (recordAll (stop_recording s).2 es)).1
      = (stop_recording s).1 ++ es ∧
    (start_recording s).recording_events = [] ∧
    (start_recording s).pageBuffer = [] := by
  refine ⟨?_, rfl, rfl⟩
  show (stop_recording (recordAll
    { recording_events := s.recording_events ++ s.pageBuffer,
      pageBuffer := [] } es)).1 = _
  rw [recordAll_buffer]
  simp [stop_recording]

/- ### The replayer `play_recording` (adapter.py lines 328-388) -/

/-- Python `s.split(sep)` for a one-character separator, on the character
list of the string: `"a#b".split("#") = ["a", "b"]`, `"".split("#") =
[""]`. -/
def splitChar (sep : Char) : List Char → List (List Char)
  | [] => [[]]
  | c :: rest =>
      match splitChar sep rest with
      | [] => [[c]]
      | h :: t => if c = sep then [] :: h :: t else (c :: h) :: t

/-- Python `str.__contains__` for a one-character needle: `"#" in s`. -/
def pyInChar (c : Char) (s : String) : Bool := decide (c ∈ s.toList)

/-- Python list indexing `l[i]`; every use below is guarded by the
membership test that makes the index exist. -/
def pyIndex (l : List (List Char)) (i : Nat) : List Char := l.getD i []

/-- `target.split("#")[1].split(".")[0]` (lines 350 and 369). -/
def elementId (target : String) : String :=
  String.mk (pyIndex (splitChar '.' (pyIndex (splitChar '#' target.toList) 1)) 0)

/-- `target.split(".")[1]` (lines 354 and 372). -/
def className (target : String) : String :=
  String.mk (pyIndex (splitChar '.' target.toList) 1)

/-- `target.split(".")[0].split("#")[0]` (lines 361 and 375). -/
def tagName (target : String) : String :=
  String.mk (pyIndex (splitChar '#' (pyIndex (splitChar '.' target.toList) 0)) 0)

/-- One driver call issued by the replay loop. -/
inductive ReplayAction where
  | clickById (id : String)
  | clickByClass (cls : String)
  | clickOnText (txt : String)
  | clickByTag (tag : String)
  | fillById (id : String) (value : String)
  | fillByClass (cls : String) (value : String)
  | fillByLabel (tag : String) (value : String)
  | gotoUrl (url : String)
deriving DecidableEq

/-- An exception raised inside the per-event `try` of `play_recording`. -/
inductive ReplayError where
  | elementNotFound (a : ReplayAction)
  | keyError (key : String)
  | nameError (missing : String)
deriving DecidableEq

/-- The click dispatch (lines 345-362): id when `"#" in target`, else
class when `"." in target`, else text when the `data` dict has a `text`
key (`"text" in event["data"]` — key presence, emptiness not checked),
else the bare tag. -/
def clickAction (event : Event) : ReplayAction :=
  if pyInChar '#' event.target then
    ReplayAction.clickById (elementId event.target)
  else if pyInChar '.' event.target then
    ReplayAction.clickByClass (className event.target)
  else if (event.data.text).isSome then
    ReplayAction.clickOnText ((event.data.text).getD "")
  else
    ReplayAction.clickByTag (tagName event.target)

/-- The input dispatch (lines 368-377), applied after
`event["data"]["value"]` was read. -/
def inputAction (event : Event) (value : String) : ReplayAction :=
  if pyInChar '#' event.target then
    ReplayAction.fillById (elementId event.target) value
  else if pyInChar '.' event.target then
    ReplayAction.fillByClass (className event.target) value
  else
    ReplayAction.fillByLabel (tagName event.target) value

/-- Dispatch of one event to its driver calls (lines 343-381): clicks and
inputs issue one targeting action (`event["data"]["value"]` raises
KeyError for an input without a value); a navigation with a `url` issues
a `goto`, without one it is a no-op; unknown types are no-ops. -/
def eventActions (event : Event) : Except ReplayError (List ReplayAction) :=
  if event.type == "click" then Except.ok [clickAction event]
  else if event.type == "input" then
    match event.data.value with
    | some v => Except.ok [inputAction event v]
    | none => Except.error (ReplayError.keyError "value")
  else if event.type == "navigation" then
    match event.data.url with
    | some u => Except.ok [ReplayAction.gotoUrl u]
    | none => Except.ok []
  else Except.ok []

/-- adapter.py imports only `json`, `time`, `typing` and `urllib.parse`
(lines 5-11): the module-global name `asyncio` used at line 385 is never
bound. -/
def asyncio_imported : Bool := false

/-- Lines 383-385: `if speed > 0: await asyncio.sleep(0.5 / speed)`.
Evaluating `asyncio.sleep` first resolves the name `asyncio`, which
raises `NameError` since the module never imports it; for a non-positive
speed the guard skips the statement, so nothing is evaluated and no
delay happens. -/
def sleepDelay (speed : ℚ) : Except ReplayError (Option ℚ) :=
  if 0 < speed then
    if asyncio_imported then Except.ok (some (1 / 2 / speed))
    else Except.error (ReplayError.nameError "asyncio")
  else Except.ok none

/-- Issue one event's actions against the page in order: `env` says
whether each driver call succeeds (element found, navigation fine); the
first failing call raises.  Returns the attempted calls and the raised
error, if any. -/
def runActions (env : ReplayAction → Bool) :
    List ReplayAction → List ReplayAction × Option ReplayError
  | [] => ([], none)
  | a :: rest =>
      if env a then
        ((runActions env rest).1.cons a, (runActions env rest).2)
      else ([a], some (ReplayError.elementNotFound a))

/-- The outcome of one loop iteration of `play_recording`: the driver
calls attempted, the exception caught by the per-event `except Exception`
handler (which prints a warning and lets the loop continue), and the
inter-event delay actually slept. -/
structure StepResult where
  attempted : List ReplayAction
  error : Option ReplayError
  slept : Option ℚ
deriving DecidableEq

/-- One iteration of the replay loop (lines 341-388): dispatch, issue the
actions, then the delay; every exception of the iteration is caught. -/
def processEvent (env : ReplayAction → Bool) (speed : ℚ) (event : Event) :
    StepResult :=
  match eventActions event with
  | Except.error e => { attempted := [], error := some e, slept := none }
  | Except.ok actions =>
      match runActions env actions with
      | (att, some e) => { attempted := att, error := some e, slept := none }
      | (att, none) =>
          match sleepDelay speed with
          | Except.ok d => { attempted := att, error := none, slept := d }
          | Except.error e => { attempted := att, error := some e, slept := none }

/-- The optional playback options dict; only `speed` is read. -/
structure PlaybackOptions where
  speed : Option ℚ
deriving DecidableEq

/-- `options.get("speed", 1.0) if options else 1.0` (line 339). -/
def effectiveSpeed (options : Option PlaybackOptions) : ℚ :=
  match options with
  | some o => o.speed.getD 1
  | none => 1

/-- `play_recording` (lines 328-388): the loop over the caller-supplied
events in order, each iteration wrapped in `try`/`except Exception`, so
no per-event failure escapes the loop. -/
def play_recording (env : ReplayAction → Bool) (events : List Event)
    (options : Option PlaybackOptions) : List StepResult :=
  events.map (processEvent env (effectiveSpeed options))

/-- Rebuilding a string from its character list is the identity. -/
theorem stringMk_toList (s : String) : String.mk s.toList = s := by
  cases s
  rfl

/-- Splitting on a character that does not occur returns the whole list. -/
theorem splitChar_eq_of_not_mem (sep : Char) (l : List Char)
    (h : sep ∉ l) : splitChar sep l = [l] := by
  induction l with
  | nil => rfl
  | cons c rest ih =>
      have hc : c ≠ sep := fun hcs => h (hcs ▸ List.mem_cons_self c rest)
      have hrest : sep ∉ rest := fun hm => h (List.mem_cons_of_mem c hm)
      unfold splitChar
      rw [ih hrest]
      simp [hc]

/-- C7 is a code bug: `asyncio` is never imported by adapter.py, so for
any positive speed the per-event delay statement raises `NameError`
(swallowed by the per-event handler) instead of sleeping — the replayed
event's driver call still happens, but `slept` is never set; a
non-positive speed skips the statement, so no delay and no error. -/
theorem play_recording_sleep_never_happens :
    processEvent (fun _ => true) 1
      { type := "navigation", timestamp := 0, target := "history.pushState",
        data := { x := none, y := none, text := none, value := none,
                  type := none, url := some "/done" } }
      = { attempted := [ReplayAction.gotoUrl "/done"],
          error := some (ReplayError.nameError "asyncio"), slept := none } ∧
    processEvent (fun _ => true) 0
      { type := "navigation", timestamp := 0, target := "history.pushState",
        data := { x := none, y := none, text := none, value := none,
                  type := none, url := some "/done" } }
      = { attempted := [ReplayAction.gotoUrl "/done"],
          error := none, slept := none } ∧
    processEvent (fun _ => true) (-1)
      { type := "navigation", timestamp := 0, target := "history.pushState",
        data := { x := none, y := none, text := none, value := none,
                  type := none, url := some "/done" } }
      = { attempted := [ReplayAction.gotoUrl "/done"],
          error := none, slept := none } ∧
    sleepDelay 2 = Except.error (ReplayError.nameError "asyncio") := by
  refine ⟨by decide, by decide, by decide, by rfl⟩

/-- C8: replay processes every event of the trace, and each event's
outcome depends only on that event — a failure while replaying one event
(element not found, missing key, the delay's NameError) never prevents
the following events from being processed. -/
theorem play_recording_resilient (env : ReplayAction → Bool)
    (options : Option PlaybackOptions) (pre post : List Event) (e : Event) :
    play_recording env (pre ++ e :: post) options
      = play_recording env pre options
        ++ processEvent env (effectiveSpeed options) e
          :: play_recording env post options ∧
    (play_recording env (pre ++ e :: post) options).length
      = pre.length + 1 + post.length := by
  constructor
  · simp [play_recording]
  · simp [play_recording]
    omega

/-- C9, as stated, is false in its third tier: the code tests
`"text" in event["data"]` — key presence, not non-emptiness — so a click
event whose target has neither `#` nor `.` and whose data carries an
EMPTY text still clicks by text, where the claim requires the bare-tag
click. -/
theorem click_targeting_counterexample :
    clickAction
      { type := "click", timestamp := 0, target := "DIV",
        data := { x := some 3, y := some 4, text := some "", value := none,
                  type := none, url := none } }
      = ReplayAction.clickOnText "" ∧
    ReplayAction.clickOnText "" ≠ ReplayAction.clickByTag "DIV" := by
  refine ⟨by rfl, by decide⟩

/-- C9 (amended): a click event issues exactly one targeting action,
chosen by this fixed priority — (1) target contains `#`: click by the id
extracted from it; (2) else target contains `.`: click by the extracted
class; (3) else the data dict carries a `text` entry (possibly empty):
click by that text; (4) else: click by the bare tag name, which is the
whole target. -/
theorem click_targeting_priority (e : Event) :
    (e.type = "click" → eventActions e = Except.ok [clickAction e]) ∧
    (pyInChar '#' e.target = true →
      clickAction e = ReplayAction.clickById (elementId e.target)) ∧
    (pyInChar '#' e.target = false → pyInChar '.' e.target = true →
      clickAction e = ReplayAction.clickByClass (className e.target)) ∧
    (pyInChar '#' e.target = false → pyInChar '.' e.target = false →
      ∀ t : String, e.data.text = some t →
        clickAction e = ReplayAction.clickOnText t) ∧
    (pyInChar '#' e.target = false → pyInChar '.' e.target = false →
      e.data.text = none →
        clickAction e = ReplayAction.clickByTag e.target) := by
  refine ⟨?_, ?_, ?_, ?_, ?_⟩
  · intro ht
    unfold eventActions
    simp [ht]
  · intro hh
    unfold clickAction
    simp [hh]
  · intro hh hd
    unfold clickAction
    simp [hh, hd]
  · intro hh hd t htxt
    unfold clickAction
    simp [hh, hd, htxt]
  · intro hh hd htxt
    unfold clickAction
    simp only [hh, hd, htxt, Bool.false_eq_true, if_false, Option.isSome_none]
    have hmemh : '#' ∉ e.target.toList := by
      have := of_decide_eq_false hh
      exact this
    have hmemd : '.' ∉ e.target.toList := by
      exact of_decide_eq_false hd
    have h1 : splitChar '.' e.target.toList = [e.target.toList] :=
      splitChar_eq_of_not_mem '.' e.target.toList hmemd
    have h2 : splitChar '#' e.target.toList = [e.target.toList] :=
      splitChar_eq_of_not_mem '#' e.target.toList hmemh
    unfold tagName
    rw [h1]
    show ReplayAction.clickByTag
      (String.mk (pyIndex (splitChar '#' e.target.toList) 0)) = _
    rw [h2]
    show ReplayAction.clickByTag (String.mk e.target.toList) = _
    rw [stringMk_toList]

/-- Witness for C9 (amended) at one concrete event per tier: id beats
class and text; class beats text; a present text beats the tag; no text
falls back to the whole target as the tag. -/
theorem click_targeting_priority_witness :
    clickAction
      { type := "click", timestamp := 0, target := "BUTTON#submit.btn",
        data := { x := none, y := none, text := some "Go", value := none,
                  type := none, url := none } }
      = ReplayAction.clickById "submit" ∧
    clickAction
      { type := "click", timestamp := 0, target := "BUTTON.btn.primary",
        data := { x := none, y := none, text := some "Go", value := none,
                  type := none, url := none } }
      = ReplayAction.clickByClass "btn" ∧
    clickAction
      { type := "click", timestamp := 0, target := "SPAN",
        data := { x := none, y := none, text := some "Go", value := none,
                  type := none, url := none } }
      = ReplayAction.clickOnText "Go" ∧
    clickAction
      { type := "click", timestamp := 0, target := "DIV",
        data := { x := none, y := none, text := none, value := none,
                  type := none, url := none } }
      = ReplayAction.clickByTag "DIV" := by
  refine ⟨?_, ?_, ?_, ?_⟩
  · have h := (click_targeting_priority
      { type := "click", timestamp := 0, target := "BUTTON#submit.btn",
        data := { x := none, y := none, text := some "Go", value := none,
                  type := none, url := none } }).2.1 (by decide)
    exact h.trans (by decide)
  · have h := (click_targeting_priority
      { type := "click", timestamp := 0, target := "BUTTON.btn.primary",
        data := { x := none, y := none, text := some "Go", value := none,
                  type := none, url := none } }).2.2.1 (by decide) (by decide)
    exact h.trans (by decide)
  · exact (click_targeting_priority
      { type := "click", timestamp := 0, target := "SPAN",
        data := { x := none, y := none, text := some "Go", value := none,
                  type := none, url := none } }).2.2.2.1 (by decide) (by decide)
      "Go" rfl
  · exact (click_targeting_priority
      { type := "click", timestamp := 0, target := "DIV",
        data := { x := none, y := none, text := none, value := none,
                  type := none, url := none } }).2.2.2.2 (by decide) (by decide)
      rfl
